import Mathlib

/-!
Verification of the backbone subsystem of DQ-DETR-DiNOv2
(`src/models/dqdetr/backbone.py`).

The Python module is shallowly embedded below.  Tensors are modelled as
explicit shape data together with a total indexing function; machine floats
are modelled by an arbitrary `Field` (with the element-wise `rsqrt`
primitive passed in abstractly) for the normalization layer, and by `ℚ`
elsewhere; Python exceptions are modelled by an explicit `Except PyError`
result; Python's construction side effects relevant to the claims (which
heavyweight modules got built before a failure) are modelled by an event
log returned next to the result.

External collaborators that are not part of the source file
(`torchvision`'s `IntermediateLayerGetter` and resnet children layout,
`torch.nn.functional.interpolate`, the `SSLVisionTransformer` encoder and
the position-encoding generator) are modelled from the specification, and
each such definition is marked as modelled from the spec in its
doc comment.
-/

/-- Python exception taxonomy used by `backbone.py`: `NotImplementedError`
(`raise NotImplementedError`), `AssertionError` (`assert`), `ValueError`
(`raise ValueError`), `TypeError` (e.g. subscripting `None`) and
`UnboundLocalError` (reading a local variable that was never assigned on
the executed path). -/
inductive PyError where
  | notImplementedError (msg : String)
  | assertionError (msg : String)
  | valueError (msg : String)
  | typeError (msg : String)
  | unboundLocalError (name : String)
deriving DecidableEq, Repr

/-- A dense 4-d tensor of shape `(b, c, h, w)` as in `torch`: explicit
shape, a dtype tag (tracked because `Joiner.forward` casts positional
encodings to the feature dtype) and a total indexing function into `ℚ`. -/
structure Tensor4 where
  b : ℕ
  c : ℕ
  h : ℕ
  w : ℕ
  dtype : String
  data : ℕ → ℕ → ℕ → ℕ → ℚ

/-- A boolean mask of shape `(b, h, w)` (the validity mask of a padded
image batch). -/
structure Mask3 where
  b : ℕ
  h : ℕ
  w : ℕ
  data : ℕ → ℕ → ℕ → Bool

/-- `util.misc.NestedTensor`: a tensor together with an optional boolean
mask (the mask field of a `NestedTensor` is `Optional[Tensor]`). -/
structure NestedTensor where
  tensors : Tensor4
  mask : Option Mask3

/-- Modelled from the spec: `torch.nn.functional.interpolate` on a
`(1, b, h, w)` float tensor with `size=(h', w')` and (the default /
explicitly requested) `nearest` mode, composed with the `float()` /
`.to(torch.bool)` round trip used at both call sites in `backbone.py`.
Nearest-neighbour resampling reads source pixel `⌊i·h/h'⌋, ⌊j·w/w'⌋`, so
it copies original boolean values exactly and the float round trip is the
identity on them. -/
def interpolateNearest (m : Mask3) (h w : ℕ) : Mask3 :=
  { b := m.b
    h := h
    w := w
    data := fun bi i j => m.data bi (i * m.h / h) (j * m.w / w) }

/-- Python `dict` / `OrderedDict` insertion `d[k] = v`: replaces the value
in place if the key is present, otherwise appends the binding. -/
def dictInsert {α : Type} (d : List (String × α)) (k : String) (v : α) :
    List (String × α) :=
  if d.any (fun p => p.1 == k) then
    d.map (fun p => if p.1 == k then (k, v) else p)
  else d ++ [(k, v)]

/-- Decimal digit characters, as produced by Python's `str` on `0`–`9`. -/
def digitCh (d : ℕ) : Char :=
  match d with
  | 0 => '0' | 1 => '1' | 2 => '2' | 3 => '3' | 4 => '4'
  | 5 => '5' | 6 => '6' | 7 => '7' | 8 => '8' | 9 => '9'
  | _ => '*'

/-- Numeric value of a decimal digit character (inverse of `digitCh` on
digits; `0` elsewhere). -/
def chVal (ch : Char) : ℕ :=
  match ch with
  | '0' => 0 | '1' => 1 | '2' => 2 | '3' => 3 | '4' => 4
  | '5' => 5 | '6' => 6 | '7' => 7 | '8' => 8 | '9' => 9
  | _ => 0

/-- Modelled from the spec: fuel-indexed core of Python's decimal
formatting of a non-negative integer (repeated `divmod` by `10`,
accumulating digits most-significant first). -/
def pyDigitsCore : ℕ → ℕ → List Char → List Char
  | 0, _, ds => ds
  | fuel + 1, n, ds =>
    if n / 10 = 0 then digitCh (n % 10) :: ds
    else pyDigitsCore fuel (n / 10) (digitCh (n % 10) :: ds)

/-- Decimal digit list of `n` (Python `str(n)` for a natural number). -/
def pyChars (n : ℕ) : List Char :=
  pyDigitsCore (n + 1) n []

/-- Python `str(n)` for a natural number, as a `String`. -/
def pyNatStr (n : ℕ) : String :=
  ⟨pyChars n⟩

/-- Decode a decimal digit list back to a number (used to prove that
`pyChars` is injective). -/
def decChars (l : List Char) : ℕ :=
  l.foldl (fun a ch => 10 * a + chVal ch) 0

/-- Contiguous-substring occurrence test on character lists: `sub`
occurs as a prefix at some position of `l`. -/
def listContains : List Char → List Char → Bool
  | [], sub => sub.isEmpty
  | c :: rest, sub => sub.isPrefixOf (c :: rest) || listContains rest sub

/-- Substring test `sub in s` of Python, on the underlying character
lists. -/
def containsSub (s sub : String) : Bool :=
  listContains s.data sub.data

/-- The three stage selections accepted by `Backbone.__init__` and
`build_backbone`: `[0,1,2,3]`, `[1,2,3]` and `[3]`. -/
def legalStageSelections : List (List ℕ) :=
  [[0, 1, 2, 3], [1, 2, 3], [3]]

/-! ## FrozenBatchNorm2d -/

/-- `FrozenBatchNorm2d`'s per-channel buffers (`weight`, `bias`,
`running_mean`, `running_var`), over an arbitrary scalar field `F`.  Each
buffer is a vector indexed by channel. -/
structure FrozenBatchNorm2d (F : Type) where
  weight : ℕ → F
  bias : ℕ → F
  running_mean : ℕ → F
  running_var : ℕ → F

/-- `FrozenBatchNorm2d.forward`: the buffers are broadcast to
`(1, C, 1, 1)` (modelled by indexing each per-channel vector at the
channel coordinate `c` only), `eps = 1e-5` is added to `running_var`
before the element-wise reciprocal square root `rsqrt` (passed in
abstractly, as the model is exact-field-valued), and the output is
`x * scale + bias` with `scale = w * rsqrt (rv + eps)` and
`bias = b - rm * scale`. -/
def FrozenBatchNorm2d.forward {F : Type} [Field F] (rsqrt : F → F)
    (bn : FrozenBatchNorm2d F) (x : ℕ → ℕ → ℕ → ℕ → F) :
    ℕ → ℕ → ℕ → ℕ → F :=
  fun bi c i j =>
    let eps : F := 1 / 100000
    let scale := bn.weight c * rsqrt (bn.running_var c + eps)
    let bias := bn.bias c - bn.running_mean c * scale
    x bi c i j * scale + bias

/-! ## BackboneBase -/

/-- The parameter-freezing loop of `BackboneBase.__init__`: for every
named parameter, `requires_grad_(False)` is called exactly when
`not train_backbone or ('layer2' not in name and 'layer3' not in name and
'layer4' not in name)` (Python precedence: `and` binds tighter than
`or`).  Parameters are modelled as `(name, requires_grad)` pairs. -/
def freezeParams (train_backbone : Bool) (params : List (String × Bool)) :
    List (String × Bool) :=
  params.map fun p =>
    if !train_backbone
        || (!(containsSub p.1 "layer2") && !(containsSub p.1 "layer3")
            && !(containsSub p.1 "layer4")) then
      (p.1, false)
    else p

/-- The `return_layers` dict built by `BackboneBase.__init__`: for each
position `idx` in `return_interm_indices`, binds key
`"layer" + str(5 - len(return_interm_indices) + idx)` to value
`str(return_interm_indices[idx])`. -/
def buildReturnLayers (return_interm_indices : List ℕ) :
    List (String × String) :=
  return_interm_indices.enum.foldl
    (fun d p =>
      dictInsert d
        ("layer" ++ pyNatStr (5 - return_interm_indices.length + p.1))
        (pyNatStr p.2))
    []

/-- The state `BackboneBase.__init__` leaves behind: the (possibly
frozen) named parameters of the wrapped encoder, the `return_layers`
binding used to build the `IntermediateLayerGetter`, and the recorded
`num_channels`. -/
structure BackboneBaseS where
  params : List (String × Bool)
  return_layers : List (String × String)
  num_channels : List ℕ
deriving DecidableEq, Repr

/-- `BackboneBase.__init__` (the encoder itself stays abstract: only its
named parameters are needed by the claims). -/
def BackboneBase.init (backboneParams : List (String × Bool))
    (train_backbone : Bool) (num_channels : List ℕ)
    (return_interm_indices : List ℕ) : BackboneBaseS :=
  { params := freezeParams train_backbone backboneParams
    return_layers := buildReturnLayers return_interm_indices
    num_channels := num_channels }

/-- Modelled from the spec: `torchvision.models._utils.IntermediateLayerGetter`'s
forward pass.  It walks the encoder's named children in order, threading
the running activation through each, and whenever a child's name has a
binding in `return_layers` it stores the activation in the output
`OrderedDict` under the bound output key. -/
def intermediateLayerGetter
    (return_layers : List (String × String)) :
    List (String × (Tensor4 → Tensor4)) → Tensor4 →
      List (String × Tensor4) → List (String × Tensor4)
  | [], _, out => out
  | (name, f) :: rest, x, out =>
    let y := f x
    match return_layers.find? (fun p => p.1 == name) with
    | some p => intermediateLayerGetter return_layers rest y (dictInsert out p.2 y)
    | none => intermediateLayerGetter return_layers rest y out

/-- Modelled from the spec: the named children of a `torchvision`
resnet, in registration order (stem, the four stages, then the
classification head).  The per-child tensor functions are abstract. -/
def resnetChildren (conv1 bn1 relu maxpool layer1 layer2 layer3 layer4
    avgpool fc : Tensor4 → Tensor4) : List (String × (Tensor4 → Tensor4)) :=
  [("conv1", conv1), ("bn1", bn1), ("relu", relu), ("maxpool", maxpool),
   ("layer1", layer1), ("layer2", layer2), ("layer3", layer3),
   ("layer4", layer4), ("avgpool", avgpool), ("fc", fc)]

/-- The output loop of `BackboneBase.forward`: for each emitted raw
feature, assert that the input mask is present (`assert m is not None`
is executed inside the loop, before the `NestedTensor` for that feature
is formed), then resample the mask to the feature's spatial shape and
pair the two. -/
def collectMasked (mask : Option Mask3) :
    List (String × Tensor4) → Except PyError (List (String × NestedTensor))
  | [] => .ok []
  | (name, x) :: rest =>
    match mask with
    | none => .error (.assertionError "m is not None")
    | some m =>
      match collectMasked mask rest with
      | .error e => .error e
      | .ok out =>
        .ok ((name, ⟨x, some (interpolateNearest m x.h x.w)⟩) :: out)

/-- `BackboneBase.forward`: run the `IntermediateLayerGetter` body on the
input tensor, then pair every emitted feature with the nearest-resampled
input mask (failing on an absent mask). -/
def BackboneBase.forward (children : List (String × (Tensor4 → Tensor4)))
    (return_layers : List (String × String)) (t : NestedTensor) :
    Except PyError (List (String × NestedTensor)) :=
  collectMasked t.mask (intermediateLayerGetter return_layers children t.tensors [])

/-! ## Backbone (resnet) -/

/-- `Backbone.__init__`.  Returns the constructed `BackboneBaseS` or the
Python exception raised, together with the event log of heavyweight
modules constructed before returning.  Control flow of the source: names
outside the four resnet variants raise `NotImplementedError` before any
construction; otherwise the torchvision resnet is constructed first, then
`assert name not in ('resnet18', 'resnet34')`, then
`assert return_interm_indices in [[0,1,2,3], [1,2,3], [3]]`, then
`num_channels = [256, 512, 1024, 2048][4 - len(return_interm_indices):]`
and delegation to `BackboneBase.__init__`.  (`dilation` only configures
the abstract torchvision encoder.) -/
def Backbone.init (name : String) (train_backbone : Bool) (dilation : Bool)
    (return_interm_indices : List ℕ)
    (resnetParams : List (String × Bool)) :
    Except PyError BackboneBaseS × List String :=
  if name ∈ ["resnet18", "resnet34", "resnet50", "resnet101"] then
    let log := ["torchvision_resnet"]
    if name ∈ ["resnet18", "resnet34"] then
      (.error (.assertionError "Only resnet50 and resnet101 are available."), log)
    else if return_interm_indices ∈ legalStageSelections then
      let num_channels_all : List ℕ := [256, 512, 1024, 2048]
      let num_channels := num_channels_all.drop (4 - return_interm_indices.length)
      (.ok (BackboneBase.init resnetParams train_backbone num_channels
        return_interm_indices), log)
    else
      (.error (.assertionError "return_interm_indices not a legal selection"), log)
  else
    (.error (.notImplementedError ("Why you can get here with name " ++ name)),
      [])

/-! ## VitBackboneAdapter -/

/-- The stage key `f"stage{idx}"` used by `VitBackboneAdapter.forward`. -/
def stageKey (idx : ℕ) : String :=
  "stage" ++ pyNatStr idx

/-- Construction state of `VitBackboneAdapter`. -/
structure VitBackboneAdapter where
  out_indices : List ℕ
  patch_size : ℕ × ℕ

/-- `VitBackboneAdapter.forward`.  The wrapped `SSLVisionTransformer` is
modelled from the spec as a black box returning an ordered sequence of
`B×C×H×W` feature tensors (`vitFeats`).  The loop runs over
`zip(self.out_indices, feats)`; for each pair it nearest-resamples the
mask to the feature's spatial shape and stores the `NestedTensor` in the
output `OrderedDict` under `f"stage{idx}"`.  With an absent mask the
first loop iteration subscripts `None` (`mask[None]`), a `TypeError`;
with an empty zip the loop body never runs and no error is raised. -/
def VitBackboneAdapter.forward (adapter : VitBackboneAdapter)
    (vitFeats : List Tensor4) (t : NestedTensor) :
    Except PyError (List (String × NestedTensor)) :=
  let pairs := adapter.out_indices.zip vitFeats
  match t.mask with
  | some m =>
    .ok (pairs.foldl
      (fun d p =>
        dictInsert d (stageKey p.1)
          ⟨p.2, some (interpolateNearest m p.2.h p.2.w)⟩)
      [])
  | none =>
    if pairs.isEmpty then .ok []
    else .error (.typeError "NoneType object is not subscriptable")

/-! ## Joiner -/

/-- Dtype cast `.to(dtype)`: tracked as retagging (values are exact in
this model). -/
def castTo (x : Tensor4) (dt : String) : Tensor4 :=
  { x with dtype := dt }

/-- `Joiner.forward`: run the contained backbone (abstracted as a
function from the input `NestedTensor` to its ordered output mapping, or
a raised exception), then, in the mapping's order, collect every feature
into `out` and the position encoding of that feature — cast to the
feature tensor's dtype — into the parallel `pos` list. -/
def Joiner.forward
    (backboneFwd : NestedTensor → Except PyError (List (String × NestedTensor)))
    (posEmbed : NestedTensor → Tensor4) (t : NestedTensor) :
    Except PyError (List NestedTensor × List Tensor4) :=
  match backboneFwd t with
  | .error e => .error e
  | .ok xs =>
    .ok (xs.map Prod.snd,
      xs.map fun p => castTo (posEmbed p.2) p.2.tensors.dtype)

/-! ## build_backbone -/

/-- The configuration fields of `args` read by `build_backbone` that are
observable in this model.  Fields that are only forwarded verbatim to the
opaque `SSLVisionTransformer` constructor (`img_size`, `depth`,
`num_heads`, `drop_path_rate`, `mlp_ratio`, `qkv_bias`, `pretrained`,
`frozen_stages`, `init_cfg`) are not modelled individually. -/
structure Args where
  backbone : String
  lr_backbone : ℚ
  dilation : Bool
  return_interm_indices : List ℕ
  use_checkpoint : Bool
  out_indices : List ℕ
  patch_size : ℕ
  embed_dim : ℕ

/-- The value `build_backbone` would return on success. -/
structure JoinerS where
  num_channels : List ℕ
deriving DecidableEq, Repr

/-- `build_backbone`.  Faithful control flow, including the two unbound
local variables of the source: on the resnet path the function assigns
`bb_num_channels` but line 240 reads the never-assigned local
`num_channels` (`UnboundLocalError`); on the `SSLVisionTransformer` /
`ssl_vit` path `position_embedding` is only assigned inside the resnet
branch, so evaluating it as an argument of `Joiner(...)` on line 239
raises `UnboundLocalError` before the `Joiner` is constructed.  The
second component is the event log of heavyweight modules constructed
before returning. -/
def build_backbone (args : Args) (resnetParams : List (String × Bool)) :
    Except PyError JoinerS × List String :=
  if args.backbone ∈ ["resnet50", "resnet101"] then
    let log0 := ["position_encoding"]
    if args.lr_backbone > 0 then
      if args.return_interm_indices ∈ legalStageSelections then
        match Backbone.init args.backbone true args.dilation
            args.return_interm_indices resnetParams with
        | (.error e, log1) => (.error e, log0 ++ log1)
        | (.ok bb, log1) =>
          if bb.num_channels.length = args.return_interm_indices.length then
            (.error (.unboundLocalError "num_channels"),
              log0 ++ log1 ++ ["joiner"])
          else
            (.error (.assertionError
              "len(bb_num_channels) != len(return_interm_indices)"),
              log0 ++ log1)
      else
        (.error (.assertionError "return_interm_indices not a legal selection"),
          log0)
    else
      (.error (.valueError "Please set lr_backbone > 0"), log0)
  else if args.backbone ∈ ["SSLVisionTransformer", "ssl_vit"] then
    (.error (.unboundLocalError "position_embedding"),
      ["ssl_vision_transformer", "vit_adapter"])
  else
    (.error (.notImplementedError ("Unknown backbone " ++ args.backbone)), [])

/-! ## Concrete instances used by witnesses -/

/-- Predicate of claim C3: a backbone output `NestedTensor` carries a
mask whose spatial shape equals the feature tensor's spatial shape. -/
def maskMatches (nt : NestedTensor) : Prop :=
  ∃ m, nt.mask = some m ∧ m.h = nt.tensors.h ∧ m.w = nt.tensors.w

/-- A concrete feature tensor used by witnesses. -/
def testTensor (h w : ℕ) : Tensor4 :=
  { b := 2, c := 3, h := h, w := w, dtype := "float32",
    data := fun _ _ _ _ => 1 }

/-- A concrete validity mask used by witnesses. -/
def testMask : Mask3 :=
  { b := 2, h := 64, w := 64, data := fun _ i j => decide (i + j < 60) }

/-- A concrete stage function used by witnesses: maps any tensor to a
fixed-shape feature map. -/
def testStage (h w : ℕ) : Tensor4 → Tensor4 :=
  fun _ => testTensor h w

/-- A concrete resnet50-style configuration used by witnesses. -/
def testArgsResnet : Args :=
  { backbone := "resnet50", lr_backbone := 1 / 10000, dilation := false,
    return_interm_indices := [1, 2, 3], use_checkpoint := false,
    out_indices := [], patch_size := 16, embed_dim := 1280 }

/-- A concrete `ssl_vit` configuration used by witnesses. -/
def testArgsVit : Args :=
  { backbone := "ssl_vit", lr_backbone := 1 / 10000, dilation := false,
    return_interm_indices := [1, 2, 3], use_checkpoint := false,
    out_indices := [2, 5, 8, 11], patch_size := 16, embed_dim := 1280 }

/-- The resnet configuration of `testArgsResnet` with a zero fine-tune
learning rate. -/
def testArgsResnetLr0 : Args :=
  { backbone := "resnet50", lr_backbone := 0, dilation := false,
    return_interm_indices := [1, 2, 3], use_checkpoint := false,
    out_indices := [], patch_size := 16, embed_dim := 1280 }

/-- Concrete frozen-normalization buffers used by the C2 witness. -/
def testBN : FrozenBatchNorm2d ℚ :=
  { weight := fun _ => 2, bias := fun _ => 3,
    running_mean := fun _ => 5, running_var := fun _ => 7 }

/-- Concrete input used by the C2 witness. -/
def testX : ℕ → ℕ → ℕ → ℕ → ℚ :=
  fun _ _ _ _ => 11

/-- Stand-in element-wise square root over `ℚ` used by the C2 witness. -/
def testSqrt : ℚ → ℚ :=
  fun v => v

/-- The reciprocal of `testSqrt`, playing `rsqrt` in the C2 witness. -/
def testRsqrt : ℚ → ℚ :=
  fun v => (testSqrt v)⁻¹

/-- A concrete backbone forward function used by the C4 witness. -/
def testBackboneFwd :
    NestedTensor → Except PyError (List (String × NestedTensor)) :=
  fun _ => .ok [("layer4", ⟨testTensor 8 8, some (interpolateNearest testMask 8 8)⟩)]

/-- A concrete position-encoding generator used by witnesses. -/
def testPosEmbed : NestedTensor → Tensor4 :=
  fun nt => { nt.tensors with dtype := "float16" }

/-- A concrete forward input used by witnesses. -/
def testInput : NestedTensor :=
  ⟨testTensor 64 64, some testMask⟩

/-! ## Helper lemmas: decimal formatting is injective -/

/-- Digit round trip on the ten decimal digits. -/
theorem chVal_digitCh (d : ℕ) (hd : d < 10) : chVal (digitCh d) = d := by
  interval_cases d <;> rfl

/-- The fuel-indexed digit loop is accumulator- and fuel-independent: any
sufficient fuel yields the canonical digit list followed by the
accumulator. -/
theorem pyDigitsCore_eq (n : ℕ) : ∀ fuel ds, n < fuel →
    pyDigitsCore fuel n ds = pyChars n ++ ds := by
  induction n using Nat.strong_induction_on with
  | _ n ih =>
    intro fuel ds hfuel
    match fuel, hfuel with
    | fuel + 1, hfuel =>
      by_cases h : n / 10 = 0
      · simp [pyDigitsCore, pyChars, h]
      · have hdiv : n / 10 < n := Nat.div_lt_self (by omega) (by norm_num)
        have h1 : pyDigitsCore (fuel + 1) n ds
            = pyDigitsCore fuel (n / 10) (digitCh (n % 10) :: ds) := by
          simp [pyDigitsCore, h]
        have h2 : pyChars n = pyChars (n / 10) ++ [digitCh (n % 10)] := by
          have : pyChars n = pyDigitsCore n (n / 10) [digitCh (n % 10)] := by
            simp [pyChars, pyDigitsCore, h]
          rw [this, ih (n / 10) hdiv n [digitCh (n % 10)] (by omega)]
        rw [h1, ih (n / 10) hdiv fuel (digitCh (n % 10) :: ds) (by omega), h2]
        simp

/-- Peeling the last digit of the canonical digit list. -/
theorem pyChars_step (n : ℕ) (h : n / 10 ≠ 0) :
    pyChars n = pyChars (n / 10) ++ [digitCh (n % 10)] := by
  have : pyChars n = pyDigitsCore n (n / 10) [digitCh (n % 10)] := by
    simp [pyChars, pyDigitsCore, h]
  rw [this, pyDigitsCore_eq (n / 10) n [digitCh (n % 10)]
    (by exact Nat.lt_of_lt_of_le (Nat.div_lt_self (by omega) (by norm_num)) (le_refl n))]

/-- Decoding the canonical digit list recovers the number. -/
theorem decChars_pyChars (n : ℕ) : decChars (pyChars n) = n := by
  induction n using Nat.strong_induction_on with
  | _ n ih =>
    by_cases h : n / 10 = 0
    · have hn : n < 10 := by omega
      have h1 : decChars (pyChars n) = chVal (digitCh (n % 10)) := by
        simp [pyChars, pyDigitsCore, h, decChars]
      rw [h1, chVal_digitCh _ (Nat.mod_lt n (by norm_num)), Nat.mod_eq_of_lt hn]
    · have hdiv : n / 10 < n := Nat.div_lt_self (by omega) (by norm_num)
      rw [pyChars_step n h]
      have : decChars (pyChars (n / 10) ++ [digitCh (n % 10)])
          = 10 * decChars (pyChars (n / 10)) + chVal (digitCh (n % 10)) := by
        simp [decChars, List.foldl_append]
      rw [this, ih (n / 10) hdiv, chVal_digitCh _ (Nat.mod_lt n (by omega))]
      omega

/-- Python decimal formatting of naturals is injective. -/
theorem pyChars_injective : Function.Injective pyChars := by
  intro a b h
  have := decChars_pyChars a
  rw [h, decChars_pyChars b] at this
  omega

/-- `str(n)` is injective. -/
theorem pyNatStr_injective : Function.Injective pyNatStr := by
  intro a b h
  exact pyChars_injective (congrArg String.data h)

/-- The `f"stage{idx}"` keys of `VitBackboneAdapter.forward` are
injective in the index. -/
theorem stageKey_injective : Function.Injective stageKey := by
  intro a b h
  apply pyNatStr_injective
  have hd : ("stage" ++ pyNatStr a).data = ("stage" ++ pyNatStr b).data :=
    congrArg String.data h
  simp only [String.data_append] at hd
  exact String.ext (by simpa using hd)

/-! ## Helper lemmas: ordered-dict insertion with fresh keys -/

/-- Inserting a fresh key appends the binding. -/
theorem dictInsert_fresh {α : Type} (d : List (String × α)) (k : String)
    (v : α) (hk : ∀ q ∈ d, q.1 ≠ k) : dictInsert d k v = d ++ [(k, v)] := by
  have : d.any (fun p => p.1 == k) = false := by
    simp only [List.any_eq_false]
    intro q hq
    simpa using hk q hq
  simp [dictInsert, this]

/-- Folding ordered-dict insertion over bindings whose keys are fresh and
pairwise distinct is plain concatenation. -/
theorem foldl_dictInsert_nodup {α : Type} :
    ∀ (ps : List (String × α)) (acc : List (String × α)),
      (ps.map Prod.fst).Nodup → (∀ p ∈ ps, ∀ q ∈ acc, q.1 ≠ p.1) →
      ps.foldl (fun d p => dictInsert d p.1 p.2) acc = acc ++ ps := by
  intro ps
  induction ps with
  | nil => intro acc _ _; simp
  | cons p ps ih =>
    intro acc hnd hfresh
    have hstep : dictInsert acc p.1 p.2 = acc ++ [p] := by
      rw [dictInsert_fresh acc p.1 p.2 (fun q hq => hfresh p (by simp) q hq)]
    have hnd' : (ps.map Prod.fst).Nodup := (List.nodup_cons.mp (by simpa using hnd)).2
    have hhead : p.1 ∉ ps.map Prod.fst := (List.nodup_cons.mp (by simpa using hnd)).1
    have hfresh' : ∀ p' ∈ ps, ∀ q ∈ acc ++ [p], q.1 ≠ p'.1 := by
      intro p' hp' q hq
      rcases List.mem_append.mp hq with hq | hq
      · exact hfresh p' (by simp [hp']) q hq
      · have : q = p := by simpa using hq
        subst this
        intro hqe
        exact hhead (hqe ▸ List.mem_map_of_mem Prod.fst hp')
    calc (p :: ps).foldl (fun d q => dictInsert d q.1 q.2) acc
        = ps.foldl (fun d q => dictInsert d q.1 q.2) (acc ++ [p]) := by
          simp [hstep]
      _ = (acc ++ [p]) ++ ps := ih (acc ++ [p]) hnd' hfresh'
      _ = acc ++ (p :: ps) := by simp

/-- The first components of a zip form a sublist of the left list. -/
theorem map_fst_zip_sublist {α β : Type} :
    ∀ (l : List α) (l' : List β), ((l.zip l').map Prod.fst).Sublist l := by
  intro l
  induction l with
  | nil => intro l'; simp
  | cons a l ih =>
    intro l'
    cases l' with
    | nil => simp
    | cons b l' => simpa using (ih l').cons₂ a

/-! ## Claim C2 -/

/-- C2: `FrozenBatchNorm2d.forward` returns
`x * scale_effective + bias_effective` with
`scale_effective = weight * rsqrt (running_var + 1e-5)` (epsilon added
strictly before the reciprocal square root) and
`bias_effective = bias - running_mean * scale_effective`; whenever
`rsqrt` is the reciprocal of the square-root function, this equals the
direct computation `weight * (x - mean) / sqrt (var + 1e-5) + bias`,
element-wise at every index `(bi, c, i, j)`. -/
theorem frozenBatchNorm_forward_closed_form {F : Type} [Field F]
    (sqrtF rsqrt : F → F) (bn : FrozenBatchNorm2d F)
    (x : ℕ → ℕ → ℕ → ℕ → F) (hr : ∀ v, rsqrt v = (sqrtF v)⁻¹)
    (bi c i j : ℕ) :
    FrozenBatchNorm2d.forward rsqrt bn x bi c i j
      = bn.weight c * (x bi c i j - bn.running_mean c)
          / sqrtF (bn.running_var c + 1 / 100000) + bn.bias c := by
  simp only [FrozenBatchNorm2d.forward, hr, div_eq_mul_inv]
  ring

/-- Witness for C2 at concrete buffers and input. -/
theorem frozenBatchNorm_forward_closed_form_witness :
    FrozenBatchNorm2d.forward testRsqrt testBN testX 0 0 0 0
      = testBN.weight 0 * (testX 0 0 0 0 - testBN.running_mean 0)
          / testSqrt (testBN.running_var 0 + 1 / 100000) + testBN.bias 0 :=
  frozenBatchNorm_forward_closed_form testSqrt testRsqrt testBN testX
    (fun _ => rfl) 0 0 0 0

/-! ## Claim C1 -/

/-- C1 (code bug): on a fully valid resnet50 configuration
`build_backbone` never returns a `Joiner`: after constructing the
`Joiner` it evaluates the local `num_channels`, which on this path was
never assigned (the code assigned `bb_num_channels` instead), raising
`UnboundLocalError`; on a valid `ssl_vit` configuration the local
`position_embedding` is unbound (it is assigned only inside the resnet
branch) and `UnboundLocalError` is raised while evaluating the arguments
of `Joiner(...)`. -/
theorem build_backbone_unbound_local_crash :
    build_backbone testArgsResnet []
      = (.error (.unboundLocalError "num_channels"),
         ["position_encoding", "torchvision_resnet", "joiner"])
    ∧ build_backbone testArgsVit []
      = (.error (.unboundLocalError "position_embedding"),
         ["ssl_vision_transformer", "vit_adapter"]) := by
  constructor
  · norm_num [build_backbone, testArgsResnet, Backbone.init,
      BackboneBase.init, legalStageSelections]
    rw [if_neg (by decide : ¬ ("resnet50" = "resnet18" ∨ "resnet50" = "resnet34"))]
    norm_num
  · norm_num [build_backbone, testArgsVit, Backbone.init,
      BackboneBase.init, legalStageSelections]
    intro h
    exact absurd h (by decide)

/-! ## Claim C6 -/

/-- C6: for a convolutional backbone choice with a non-positive
fine-tune learning rate, `build_backbone` raises
`ValueError("Please set lr_backbone > 0")`, and the torchvision encoder
is never constructed (the event log contains no encoder event; only the
position-encoding generator was built before the failure). -/
theorem build_backbone_rejects_nonpositive_lr (args : Args)
    (resnetParams : List (String × Bool))
    (hb : args.backbone ∈ (["resnet50", "resnet101"] : List String))
    (hlr : args.lr_backbone ≤ 0) :
    (build_backbone args resnetParams).1
      = .error (.valueError "Please set lr_backbone > 0")
    ∧ "torchvision_resnet" ∉ (build_backbone args resnetParams).2 := by
  have hlt : ¬ (args.lr_backbone > 0) := not_lt.mpr hlr
  have hres : build_backbone args resnetParams
      = (.error (.valueError "Please set lr_backbone > 0"),
         ["position_encoding"]) := by
    unfold build_backbone
    rw [if_pos hb, if_neg hlt]
  rw [hres]
  exact ⟨rfl, by simp⟩

/-- Witness for C6 at a concrete zero-learning-rate configuration. -/
theorem build_backbone_rejects_nonpositive_lr_witness :
    (build_backbone testArgsResnetLr0 []).1
      = .error (.valueError "Please set lr_backbone > 0")
    ∧ "torchvision_resnet" ∉ (build_backbone testArgsResnetLr0 []).2 :=
  build_backbone_rejects_nonpositive_lr testArgsResnetLr0 []
    (by decide) (by norm_num [testArgsResnetLr0])

/-! ## Claim C8 -/

/-- C8: after the freezing loop of `BackboneBase.__init__`, a parameter
that started with gradient tracking enabled ends with it disabled exactly
when the trainable flag is false or its name contains none of `layer2`,
`layer3`, `layer4`; equivalently it stays trainable only when the flag is
true and the name mentions one of the later stages, so the stem and the
earliest stage are always frozen. -/
theorem freezeParams_requires_grad_iff (tb : Bool)
    (params : List (String × Bool)) (i : ℕ) (hi : i < params.length)
    (hif : i < (freezeParams tb params).length)
    (hg : (params[i]).2 = true) :
    ((freezeParams tb params)[i]).2 = false
      ↔ (tb = false
         ∨ (containsSub (params[i]).1 "layer2" = false
            ∧ containsSub (params[i]).1 "layer3" = false
            ∧ containsSub (params[i]).1 "layer4" = false)) := by
  have key : ∀ (p : String × Bool), p.2 = true →
      ((if !tb || (!(containsSub p.1 "layer2") && !(containsSub p.1 "layer3")
          && !(containsSub p.1 "layer4")) then (p.1, false) else p).2 = false
        ↔ (tb = false
           ∨ (containsSub p.1 "layer2" = false
              ∧ containsSub p.1 "layer3" = false
              ∧ containsSub p.1 "layer4" = false))) := by
    rintro ⟨name, g⟩ hg
    simp only at hg
    subst hg
    cases tb <;> cases h2 : containsSub name "layer2" <;>
      cases h3 : containsSub name "layer3" <;>
      cases h4 : containsSub name "layer4" <;> simp_all
  simp only [freezeParams, List.getElem_map]
  exact key params[i] hg

/-- Witness for C8: with the flag on, a `layer2` parameter stays
trainable, as the iff instantiates to an equivalence between two false
sides. -/
theorem freezeParams_requires_grad_iff_witness :
    ((freezeParams true [("backbone.layer2.0.conv1.weight", true)])[0]).2
        = false
      ↔ (true = false
         ∨ (containsSub "backbone.layer2.0.conv1.weight" "layer2" = false
            ∧ containsSub "backbone.layer2.0.conv1.weight" "layer3" = false
            ∧ containsSub "backbone.layer2.0.conv1.weight" "layer4" = false)) :=
  freezeParams_requires_grad_iff true
    [("backbone.layer2.0.conv1.weight", true)] 0 (by decide) (by decide)
    (by decide)

/-! ## Helper lemmas: Backbone construction -/

/-- On a supported depth that is not resnet18/34, with a legal stage
selection, `Backbone.__init__` succeeds and delegates to
`BackboneBase.__init__` with the sliced channel table. -/
theorem Backbone.init_legal (name : String)
    (h4 : name ∈ (["resnet18", "resnet34", "resnet50", "resnet101"] : List String))
    (h18 : name ∉ (["resnet18", "resnet34"] : List String))
    (tb dil : Bool) (sel : List ℕ) (params : List (String × Bool))
    (hs : sel ∈ legalStageSelections) :
    Backbone.init name tb dil sel params
      = (.ok (BackboneBase.init params tb
            (([256, 512, 1024, 2048] : List ℕ).drop (4 - sel.length)) sel),
         ["torchvision_resnet"]) := by
  simp only [Backbone.init]
  rw [if_pos h4, if_neg h18, if_pos hs]

/-- On a supported depth that is not resnet18/34, an illegal stage
selection trips the selection assertion after the torchvision encoder was
constructed. -/
theorem Backbone.init_illegal_sel (name : String)
    (h4 : name ∈ (["resnet18", "resnet34", "resnet50", "resnet101"] : List String))
    (h18 : name ∉ (["resnet18", "resnet34"] : List String))
    (tb dil : Bool) (sel : List ℕ) (params : List (String × Bool))
    (hs : sel ∉ legalStageSelections) :
    Backbone.init name tb dil sel params
      = (.error (.assertionError "return_interm_indices not a legal selection"),
         ["torchvision_resnet"]) := by
  simp only [Backbone.init]
  rw [if_pos h4, if_neg h18, if_neg hs]

/-! ## Claim C7 -/

/-- C7 counterexample: for `resnet18` the construction does not fail with
the claimed NotSupported error (`NotImplementedError`): it fails with an
`AssertionError`, and only after the torchvision encoder was already
constructed. -/
theorem backbone_resnet18_assertion_not_notimplemented :
    (Backbone.init "resnet18" true false [3] []).1
      = .error (.assertionError "Only resnet50 and resnet101 are available.")
    ∧ (∀ msg, (Backbone.init "resnet18" true false [3] []).1
        ≠ .error (.notImplementedError msg))
    ∧ "torchvision_resnet" ∈ (Backbone.init "resnet18" true false [3] []).2 := by
  have h : Backbone.init "resnet18" true false [3] []
      = (.error (.assertionError "Only resnet50 and resnet101 are available."),
         ["torchvision_resnet"]) := by
    simp only [Backbone.init]
    rw [if_pos (by decide), if_pos (by decide)]
  rw [h]
  exact ⟨rfl, fun msg => by simp, by simp⟩

/-- C7 amended: names outside the four torchvision resnet variants fail
with `NotImplementedError` before any encoder construction; `resnet18`
and `resnet34` first construct the torchvision encoder and then fail the
depth assertion; a successful construction implies the depth was
`resnet50` or `resnet101`. -/
theorem backbone_init_depth_validation (name : String) (tb dil : Bool)
    (sel : List ℕ) (params : List (String × Bool)) :
    (name ∉ (["resnet18", "resnet34", "resnet50", "resnet101"] : List String) →
      Backbone.init name tb dil sel params
        = (.error (.notImplementedError
            ("Why you can get here with name " ++ name)), []))
    ∧ (name ∈ (["resnet18", "resnet34"] : List String) →
      Backbone.init name tb dil sel params
        = (.error (.assertionError "Only resnet50 and resnet101 are available."),
           ["torchvision_resnet"]))
    ∧ (∀ bb log, Backbone.init name tb dil sel params = (.ok bb, log) →
      name ∈ (["resnet50", "resnet101"] : List String)) := by
  refine ⟨?_, ?_, ?_⟩
  · intro h
    simp only [Backbone.init]
    rw [if_neg h]
  · intro h
    have h4 : name ∈ (["resnet18", "resnet34", "resnet50", "resnet101"] : List String) := by
      rcases (by simpa using h : name = "resnet18" ∨ name = "resnet34") with rfl | rfl <;>
        decide
    simp only [Backbone.init]
    rw [if_pos h4, if_pos h]
  · intro bb log heq
    by_cases h4 : name ∈ (["resnet18", "resnet34", "resnet50", "resnet101"] : List String)
    · by_cases h18 : name ∈ (["resnet18", "resnet34"] : List String)
      · simp only [Backbone.init] at heq
        rw [if_pos h4, if_pos h18] at heq
        simp at heq
      · have : name = "resnet18" ∨ name = "resnet34" ∨ name = "resnet50"
            ∨ name = "resnet101" := by simpa using h4
        have h18' : ¬ (name = "resnet18" ∨ name = "resnet34") := by simpa using h18
        simp only [List.mem_cons, List.mem_singleton]
        tauto
    · simp only [Backbone.init] at heq
      rw [if_neg h4] at heq
      simp at heq

/-- Witness for the amended C7 at an unrecognized depth name. -/
theorem backbone_init_depth_validation_witness :
    Backbone.init "alexnet" true false [3] []
      = (.error (.notImplementedError
          ("Why you can get here with name " ++ "alexnet")), []) :=
  (backbone_init_depth_validation "alexnet" true false [3] []).1 (by decide)

/-! ## Claim C5 -/

/-- C5: `Backbone.__init__` on a supported depth accepts a stage
selection exactly when it is one of `[0,1,2,3]`, `[1,2,3]`, `[3]`; and
`build_backbone`'s convolutional path (with positive learning rate)
raises the stage-selection assertion exactly when the selection is
illegal. -/
theorem stage_selection_validated (name : String)
    (hname : name ∈ (["resnet50", "resnet101"] : List String))
    (tb dil : Bool) (sel : List ℕ) (params : List (String × Bool))
    (args : Args) (hb : args.backbone = name) (hlr : args.lr_backbone > 0)
    (hsel : args.return_interm_indices = sel)
    (resnetParams : List (String × Bool)) :
    ((∃ bb log, Backbone.init name tb dil sel params = (.ok bb, log))
      ↔ sel ∈ legalStageSelections)
    ∧ ((build_backbone args resnetParams).1
        = .error (.assertionError "return_interm_indices not a legal selection")
      ↔ sel ∉ legalStageSelections) := by
  have h4 : name ∈ (["resnet18", "resnet34", "resnet50", "resnet101"] : List String) := by
    rcases (by simpa using hname : name = "resnet50" ∨ name = "resnet101") with rfl | rfl <;>
      decide
  have h18 : name ∉ (["resnet18", "resnet34"] : List String) := by
    rcases (by simpa using hname : name = "resnet50" ∨ name = "resnet101") with rfl | rfl <;>
      decide
  constructor
  · constructor
    · rintro ⟨bb, log, heq⟩
      by_contra hs
      rw [Backbone.init_illegal_sel name h4 h18 tb dil sel params hs] at heq
      simp at heq
    · intro hs
      exact ⟨_, _, Backbone.init_legal name h4 h18 tb dil sel params hs⟩
  · unfold build_backbone
    rw [hb, hsel, if_pos hname, if_pos hlr]
    by_cases hs : sel ∈ legalStageSelections
    · rw [if_pos hs,
        Backbone.init_legal name h4 h18 true args.dilation sel resnetParams hs]
      have hlen : (([256, 512, 1024, 2048] : List ℕ).drop (4 - sel.length)).length
          = sel.length := by
        rcases (by simpa [legalStageSelections] using hs :
            sel = [0, 1, 2, 3] ∨ sel = [1, 2, 3] ∨ sel = [3]) with rfl | rfl | rfl <;>
          decide
      simp [BackboneBase.init, hlen, hs]
    · rw [if_neg hs]
      simp [hs]

/-- Witness for C5: resnet50 with the legal selection `[1,2,3]`. -/
theorem stage_selection_validated_witness :
    ((∃ bb log, Backbone.init "resnet50" true false [1, 2, 3] [] = (.ok bb, log))
      ↔ [1, 2, 3] ∈ legalStageSelections)
    ∧ ((build_backbone testArgsResnet []).1
        = .error (.assertionError "return_interm_indices not a legal selection")
      ↔ [1, 2, 3] ∉ legalStageSelections) :=
  stage_selection_validated "resnet50" (by decide) true false [1, 2, 3] []
    testArgsResnet rfl (by norm_num [testArgsResnet]) rfl []

/-! ## Claim C4 -/

/-- C4: whenever the contained backbone returns an ordered output
mapping, `Joiner.forward` returns two lists of equal length, and the
`i`-th positional encoding is the position-encoding generator applied to
the `i`-th feature, cast to that feature tensor's dtype. -/
theorem joiner_forward_pairing
    (backboneFwd : NestedTensor → Except PyError (List (String × NestedTensor)))
    (posEmbed : NestedTensor → Tensor4) (t : NestedTensor)
    (xs : List (String × NestedTensor)) (h : backboneFwd t = .ok xs) :
    ∃ out pos, Joiner.forward backboneFwd posEmbed t = .ok (out, pos)
      ∧ out.length = pos.length
      ∧ ∀ (i : ℕ) (hi : i < out.length) (hp : i < pos.length),
          pos[i] = castTo (posEmbed out[i]) ((out[i]).tensors.dtype) := by
  refine ⟨xs.map Prod.snd,
    xs.map (fun p => castTo (posEmbed p.2) p.2.tensors.dtype), ?_, by simp, ?_⟩
  · simp [Joiner.forward, h]
  · intro i hi hp
    simp only [List.getElem_map]

/-- Witness for C4 at a concrete single-stage backbone. -/
theorem joiner_forward_pairing_witness :
    ∃ out pos, Joiner.forward testBackboneFwd testPosEmbed testInput
        = .ok (out, pos)
      ∧ out.length = pos.length
      ∧ ∀ (i : ℕ) (hi : i < out.length) (hp : i < pos.length),
          pos[i] = castTo (testPosEmbed out[i]) ((out[i]).tensors.dtype) :=
  joiner_forward_pairing testBackboneFwd testPosEmbed testInput
    [("layer4", ⟨testTensor 8 8, some (interpolateNearest testMask 8 8)⟩)] rfl


/-! ## Helper lemma: the ViT adapter loop as a map over the zip -/

/-- With a present mask and pairwise-distinct output indices, the
`OrderedDict` built by `VitBackboneAdapter.forward` is exactly the
positional zip of `out_indices` with the encoder features, in loop
order. -/
theorem vitForward_eq_map (adapter : VitBackboneAdapter)
    (vitFeats : List Tensor4) (t : NestedTensor) (m : Mask3)
    (hnd : adapter.out_indices.Nodup) (hm : t.mask = some m) :
    adapter.forward vitFeats t
      = .ok ((adapter.out_indices.zip vitFeats).map
          (fun p => (stageKey p.1,
            (⟨p.2, some (interpolateNearest m p.2.h p.2.w)⟩ : NestedTensor)))) := by
  have h1 : (adapter.out_indices.zip vitFeats).foldl
      (fun d p => dictInsert d (stageKey p.1)
        ⟨p.2, some (interpolateNearest m p.2.h p.2.w)⟩) []
      = ((adapter.out_indices.zip vitFeats).map
          (fun p => (stageKey p.1,
            (⟨p.2, some (interpolateNearest m p.2.h p.2.w)⟩ : NestedTensor)))).foldl
          (fun d q => dictInsert d q.1 q.2) [] := by
    rw [List.foldl_map]
  have h2 : (((adapter.out_indices.zip vitFeats).map
      (fun p => (stageKey p.1,
        (⟨p.2, some (interpolateNearest m p.2.h p.2.w)⟩ : NestedTensor)))).map
          Prod.fst).Nodup := by
    rw [List.map_map]
    have hcomp : (Prod.fst ∘ fun p : ℕ × Tensor4 => (stageKey p.1,
        (⟨p.2, some (interpolateNearest m p.2.h p.2.w)⟩ : NestedTensor)))
        = stageKey ∘ Prod.fst := rfl
    rw [hcomp, ← List.map_map]
    exact (List.Nodup.sublist (map_fst_zip_sublist _ _) hnd).map stageKey_injective
  simp only [VitBackboneAdapter.forward, hm]
  rw [h1, foldl_dictInsert_nodup _ [] h2 (fun p _ q hq => absurd hq
    (List.not_mem_nil q)), List.nil_append]

/-! ## Claim C9 -/

/-- C9: with a legal stage selection, `BackboneBase.forward` fails with
the mask-presence assertion (raised before any `NestedTensor` output is
formed) whenever the input mask is absent, and never raises it when the
mask is present. -/
theorem backboneBase_forward_requires_mask (sel : List ℕ)
    (hsel : sel ∈ legalStageSelections)
    (conv1 bn1 relu maxpool layer1 layer2 layer3 layer4 avgpool fc :
      Tensor4 → Tensor4) (x : Tensor4) :
    BackboneBase.forward
        (resnetChildren conv1 bn1 relu maxpool layer1 layer2 layer3 layer4
          avgpool fc) (buildReturnLayers sel) ⟨x, none⟩
      = .error (.assertionError "m is not None")
    ∧ ∀ m : Mask3, ∃ out,
        BackboneBase.forward
            (resnetChildren conv1 bn1 relu maxpool layer1 layer2 layer3 layer4
              avgpool fc) (buildReturnLayers sel) ⟨x, some m⟩
          = .ok out := by
  rcases (by simpa [legalStageSelections] using hsel :
      sel = [0, 1, 2, 3] ∨ sel = [1, 2, 3] ∨ sel = [3]) with rfl | rfl | rfl <;>
    exact ⟨rfl, fun m => ⟨_, rfl⟩⟩

/-- Witness for C9 at the selection `[3]` and concrete stages. -/
theorem backboneBase_forward_requires_mask_witness :
    BackboneBase.forward
        (resnetChildren (testStage 32 32) (testStage 32 32) (testStage 32 32)
          (testStage 16 16) (testStage 16 16) (testStage 8 8) (testStage 4 4)
          (testStage 2 2) (testStage 1 1) (testStage 1 1))
        (buildReturnLayers [3]) ⟨testTensor 64 64, none⟩
      = .error (.assertionError "m is not None")
    ∧ ∀ m : Mask3, ∃ out,
        BackboneBase.forward
            (resnetChildren (testStage 32 32) (testStage 32 32) (testStage 32 32)
              (testStage 16 16) (testStage 16 16) (testStage 8 8) (testStage 4 4)
              (testStage 2 2) (testStage 1 1) (testStage 1 1))
            (buildReturnLayers [3]) ⟨testTensor 64 64, some m⟩
          = .ok out :=
  backboneBase_forward_requires_mask [3] (by decide) (testStage 32 32)
    (testStage 32 32) (testStage 32 32) (testStage 16 16) (testStage 16 16)
    (testStage 8 8) (testStage 4 4) (testStage 2 2) (testStage 1 1)
    (testStage 1 1) (testTensor 64 64)

/-! ## Claim C3 -/

/-- C3: for every legal stage selection, both backbone families return
exactly one `FeatureMap` per selected stage, and every returned feature's
mask has exactly the feature tensor's spatial shape.  The
`SSLVisionTransformer` is modelled from the spec as emitting one feature
per configured output index (`hlen`). -/
theorem backbone_feature_count_and_mask_shape (sel : List ℕ)
    (hsel : sel ∈ legalStageSelections)
    (conv1 bn1 relu maxpool layer1 layer2 layer3 layer4 avgpool fc :
      Tensor4 → Tensor4) (x : Tensor4) (m : Mask3)
    (adapter : VitBackboneAdapter) (hout : adapter.out_indices = sel)
    (vitFeats : List Tensor4) (hlen : vitFeats.length = sel.length) :
    (∃ out, BackboneBase.forward
          (resnetChildren conv1 bn1 relu maxpool layer1 layer2 layer3 layer4
            avgpool fc) (buildReturnLayers sel) ⟨x, some m⟩
        = .ok out
      ∧ out.length = sel.length ∧ ∀ p ∈ out, maskMatches p.2)
    ∧ (∃ outV, adapter.forward vitFeats ⟨x, some m⟩ = .ok outV
      ∧ outV.length = sel.length ∧ ∀ p ∈ outV, maskMatches p.2) := by
  have hnd : adapter.out_indices.Nodup := by
    rw [hout]
    rcases (by simpa [legalStageSelections] using hsel :
        sel = [0, 1, 2, 3] ∨ sel = [1, 2, 3] ∨ sel = [3]) with rfl | rfl | rfl <;>
      decide
  constructor
  · rcases (by simpa [legalStageSelections] using hsel :
        sel = [0, 1, 2, 3] ∨ sel = [1, 2, 3] ∨ sel = [3]) with rfl | rfl | rfl
    · refine ⟨_, rfl, rfl, ?_⟩
      intro p hp
      simp only [List.mem_cons, List.not_mem_nil, or_false] at hp
      rcases hp with rfl | rfl | rfl | rfl <;> exact ⟨_, rfl, rfl, rfl⟩
    · refine ⟨_, rfl, rfl, ?_⟩
      intro p hp
      simp only [List.mem_cons, List.not_mem_nil, or_false] at hp
      rcases hp with rfl | rfl | rfl <;> exact ⟨_, rfl, rfl, rfl⟩
    · refine ⟨_, rfl, rfl, ?_⟩
      intro p hp
      simp only [List.mem_cons, List.not_mem_nil, or_false] at hp
      rcases hp with rfl <;> exact ⟨_, rfl, rfl, rfl⟩
  · refine ⟨_, vitForward_eq_map adapter vitFeats ⟨x, some m⟩ m hnd rfl, ?_, ?_⟩
    · simp [hout, List.length_zip, hlen]
    · intro p hp
      simp only [List.mem_map] at hp
      obtain ⟨q, hq, rfl⟩ := hp
      exact ⟨_, rfl, rfl, rfl⟩

/-- Witness for C3: selection `[3]` with one concrete stage feature on
each path. -/
theorem backbone_feature_count_and_mask_shape_witness :
    (∃ out, BackboneBase.forward
          (resnetChildren (testStage 32 32) (testStage 32 32) (testStage 32 32)
            (testStage 16 16) (testStage 16 16) (testStage 8 8) (testStage 4 4)
            (testStage 2 2) (testStage 1 1) (testStage 1 1))
          (buildReturnLayers [3]) ⟨testTensor 64 64, some testMask⟩
        = .ok out
      ∧ out.length = ([3] : List ℕ).length ∧ ∀ p ∈ out, maskMatches p.2)
    ∧ (∃ outV, VitBackboneAdapter.forward ⟨[3], (16, 16)⟩ [testTensor 4 4]
          ⟨testTensor 64 64, some testMask⟩
        = .ok outV
      ∧ outV.length = ([3] : List ℕ).length ∧ ∀ p ∈ outV, maskMatches p.2) :=
  backbone_feature_count_and_mask_shape [3] (by decide) (testStage 32 32)
    (testStage 32 32) (testStage 32 32) (testStage 16 16) (testStage 16 16)
    (testStage 8 8) (testStage 4 4) (testStage 2 2) (testStage 1 1)
    (testStage 1 1) (testTensor 64 64) testMask ⟨[3], (16, 16)⟩ rfl
    [testTensor 4 4] rfl

/-! ## Claim C10 -/

/-- C10: with a present mask and pairwise-distinct configured output
indices, `VitBackboneAdapter.forward` pairs `out_indices` with the
encoder's features positionally via `zip`, returns without error, and
produces exactly `min (len out_indices) (len feats)` entries — surplus
indices or features are silently dropped. -/
theorem vit_adapter_positional_truncation (adapter : VitBackboneAdapter)
    (vitFeats : List Tensor4) (t : NestedTensor) (m : Mask3)
    (hnd : adapter.out_indices.Nodup) (hm : t.mask = some m) :
    ∃ d, adapter.forward vitFeats t = .ok d
      ∧ d = (adapter.out_indices.zip vitFeats).map
          (fun p => (stageKey p.1,
            (⟨p.2, some (interpolateNearest m p.2.h p.2.w)⟩ : NestedTensor)))
      ∧ d.length = min adapter.out_indices.length vitFeats.length := by
  refine ⟨_, vitForward_eq_map adapter vitFeats t m hnd hm, rfl, ?_⟩
  simp [List.length_zip]

/-- Witness for C10: three configured indices against two encoder
features — one index is silently dropped and two entries come back. -/
theorem vit_adapter_positional_truncation_witness :
    ∃ d, VitBackboneAdapter.forward ⟨[2, 5, 8], (16, 16)⟩
        [testTensor 8 8, testTensor 4 4] testInput = .ok d
      ∧ d = (([2, 5, 8] : List ℕ).zip [testTensor 8 8, testTensor 4 4]).map
          (fun p => (stageKey p.1,
            (⟨p.2, some (interpolateNearest testMask p.2.h p.2.w)⟩ : NestedTensor)))
      ∧ d.length = min ([2, 5, 8] : List ℕ).length
          ([testTensor 8 8, testTensor 4 4] : List Tensor4).length :=
  vit_adapter_positional_truncation ⟨[2, 5, 8], (16, 16)⟩
    [testTensor 8 8, testTensor 4 4] testInput testMask (by decide) rfl

/-- C10 counterexample: with the duplicated index list `[1, 1]` and two
encoder features, the two zip pairs share the stage key `stage1`, the
second insertion overwrites the first, and the adapter returns one entry
— not `min 2 2 = 2` as the claim states — still with no error. -/
theorem vit_adapter_duplicate_index_collapse :
    VitBackboneAdapter.forward ⟨[1, 1], (16, 16)⟩
        [testTensor 8 8, testTensor 4 4] testInput
      = .ok [(stageKey 1,
          ⟨testTensor 4 4, some (interpolateNearest testMask 4 4)⟩)]
    ∧ (1 : ℕ) ≠ min ([1, 1] : List ℕ).length
        ([testTensor 8 8, testTensor 4 4] : List Tensor4).length :=
  ⟨rfl, by decide⟩
